import Mathlib

/-!
Verification development for the Refund-Guard repository: shallow embedding of
the refund-policy calculator, the analysis endpoint's validation and policy
reconciliation (src/unnamed/part_001), the engine client's JSON-span recovery
fallback (src/server/server.js), and the client workflow's refund-percent
display and payload construction (src/unnamed/part_000).

JavaScript numbers are modelled as rationals; JSON values as the `JVal`
inductive; JavaScript objects as ordered association lists of string keys.
-/

/-- JSON values, as produced by JSON.parse / consumed by res.json. -/
inductive JVal where
  | null : JVal
  | bool (b : Bool) : JVal
  | num (q : ℚ) : JVal
  | str (s : String) : JVal
  | arr (elems : List JVal) : JVal
  | obj (fields : List (String × JVal)) : JVal

/-- First value bound to key `k` in a JS-object association list
(JS objects never hold duplicate keys, so first = only). -/
def lookupKey : List (String × JVal) → String → Option JVal
  | [], _ => none
  | (k', v') :: rest, k => if k' = k then some v' else lookupKey rest k

/-- JS object-literal / spread assignment of one key: replace the value in
place when the key exists, append the entry otherwise (JS keeps the original
insertion position on overwrite). -/
def setKey : List (String × JVal) → String → JVal → List (String × JVal)
  | [], k, v => [(k, v)]
  | (k', v') :: rest, k, v =>
      if k' = k then (k', v) :: rest else (k', v') :: setKey rest k v

/-- JS object spread `{...base, ...override}`: every entry of `override` is
assigned over `base`, later entries winning. -/
def spreadObj (base override : List (String × JVal)) : List (String × JVal) :=
  override.foldl (fun acc e => setKey acc e.1 e.2) base

/-- Embeds `computeRefundPercent(total, refunded)` from server.js lines 59-63 /
part_001 lines 88-92: `!total || total <= 0` catches a missing, null, zero or
negative total (`none` models null/undefined, and `some 0` is falsy in JS);
`refunded == null` catches a missing refunded amount. -/
def computeRefundPercent (total refunded : Option ℚ) : Option ℚ :=
  match total with
  | none => none
  | some t =>
    if t ≤ 0 then none
    else
      match refunded with
      | none => none
      | some r => some (r / t * 100)

/-- Embeds the flag computation `refundPercent != null && refundPercent > cap` (part_001 lines 204-207). -/
def capExceeded (refundPercent : Option ℚ) (cap : ℚ) : Bool :=
  match refundPercent with
  | none => false
  | some p => decide (p > cap)

/-! ## Analysis endpoint (src/unnamed/part_001) -/

/-- A JSON request body for POST /api/analyze, after JSON decoding: the numeric
fields may be absent or null (both modelled as `none`). -/
structure RawAnalyzeBody where
  rawNotes : String
  issueType : String
  bookingTotal : Option ℚ
  refundedAmount : Option ℚ
  encouragedRefundCapPercent : Option ℚ
  maxRefundCapPercent : Option ℚ

/-- A request accepted by `AnalyzeSchema.parse`: caps are defaulted, so no
longer optional. -/
structure AnalyzeInput where
  rawNotes : String
  issueType : String
  bookingTotal : Option ℚ
  refundedAmount : Option ℚ
  encouragedRefundCapPercent : ℚ
  maxRefundCapPercent : ℚ

/-- Embeds `AnalyzeSchema.parse` (part_001 lines 77-86): zod object with
`rawNotes: z.string().min(10)`, `issueType: z.string().min(1)`, nullable
optional numbers for the amounts, and caps `z.number().default(15)` /
`.default(20)` (the default applies when the field is absent).
String length is measured in characters, modelling the JS `.length`. -/
def AnalyzeSchema.parse (body : RawAnalyzeBody) : Except String AnalyzeInput :=
  if body.rawNotes.length < 10 then
    .error "rawNotes: String must contain at least 10 character(s)"
  else if body.issueType.length < 1 then
    .error "issueType: String must contain at least 1 character(s)"
  else
    .ok { rawNotes := body.rawNotes
          issueType := body.issueType
          bookingTotal := body.bookingTotal
          refundedAmount := body.refundedAmount
          encouragedRefundCapPercent := body.encouragedRefundCapPercent.getD 15
          maxRefundCapPercent := body.maxRefundCapPercent.getD 20 }

/-- The string-keyed fields contributed by spreading a value (`{...data}`):
an object contributes its entries; null, booleans and numbers contribute
nothing. (JSON.parse output is one of these or a string/array; spreading a
string or array would contribute numeric index keys, which no field name used
by this server collides with, so they are not modelled.) -/
def topFields : JVal → List (String × JVal)
  | .obj o => o
  | _ => []

/-- Embeds `data?.policy || \x7b\x7d` (part_001 line 221): the engine's own policy
sub-object when it supplied one, the empty object otherwise (absent or falsy
`policy`, or non-object `data`). -/
def enginePolicy (data : JVal) : List (String × JVal) :=
  match lookupKey (topFields data) "policy" with
  | some (.obj p) => p
  | _ => []

/-- The locally computed policy fields written first into the merged policy
object (part_001 lines 215-220), in source order. A null refund percent is
serialized as JSON null. -/
def localPolicy (refundPercent : Option ℚ) (soft hard : Bool)
    (encCap maxCap : ℚ) : List (String × JVal) :=
  [("encouraged_cap_percent", .num encCap),
   ("max_cap_percent", .num maxCap),
   ("refund_percent", match refundPercent with | none => .null | some p => .num p),
   ("soft_cap_exceeded", .bool soft),
   ("hard_cap_exceeded", .bool hard)]

/-- The `policy` object of the merged result (part_001 lines 215-222): the
five local fields, then the spread of the engine's policy sub-object over
them — so engine-supplied entries are assigned last. -/
def mergedPolicy (data : JVal) (refundPercent : Option ℚ) (soft hard : Bool)
    (encCap maxCap : ℚ) : List (String × JVal) :=
  spreadObj (localPolicy refundPercent soft hard encCap maxCap) (enginePolicy data)

/-- Embeds `merged = \x7b ...data, policy: \x7b...\x7d \x7d` (part_001 lines
213-223): the engine output's fields, with `policy` assigned the merged
policy object (replacing any engine-supplied `policy` in place). -/
def mergedResult (data : JVal) (refundPercent : Option ℚ) (soft hard : Bool)
    (encCap maxCap : ℚ) : List (String × JVal) :=
  setKey (topFields data) "policy"
    (.obj (mergedPolicy data refundPercent soft hard encCap maxCap))

/-- An HTTP response: `res.json(x)` is status 200, `res.status(s).json(x)`
carries status `s`; both bodies here are JSON objects. -/
structure HttpResponse where
  status : Nat
  body : List (String × JVal)

/-- POST /api/analyze (part_001 lines 199-231). The engine call
(`buildPrompt` + `geminiGenerateJson`) is abstracted as a function of the
validated input (the prompt is a pure function of it): `.error` models any
throw (transport failure, empty output, parse failure), `.ok` the parsed
engine JSON. Every throw is caught and answered with status 400 and an
object holding the single `error` field. -/
def analyzeEndpoint (engine : AnalyzeInput → Except String JVal)
    (body : RawAnalyzeBody) : HttpResponse :=
  match AnalyzeSchema.parse body with
  | .error msg => { status := 400, body := [("error", .str msg)] }
  | .ok input =>
    let refundPercent := computeRefundPercent input.bookingTotal input.refundedAmount
    let soft := capExceeded refundPercent input.encouragedRefundCapPercent
    let hard := capExceeded refundPercent input.maxRefundCapPercent
    match engine input with
    | .error msg => { status := 400, body := [("error", .str msg)] }
    | .ok data =>
      { status := 200
        body := mergedResult data refundPercent soft hard
          input.encouragedRefundCapPercent input.maxRefundCapPercent }

/-! ## Reasoning engine client: JSON-span recovery (src/server/server.js) -/

def lbrace : Char := Char.ofNat 123

def rbrace : Char := Char.ofNat 125

/-- Embeds `modelText.indexOf("\x7b")`: index of the first opening brace, `none`
modelling -1. -/
def firstBrace (cs : List Char) : Option Nat :=
  cs.findIdx? (· = lbrace)

/-- Embeds `modelText.lastIndexOf("\x7d")`: index of the last closing brace, `none`
modelling -1. -/
def lastBrace (cs : List Char) : Option Nat :=
  (cs.reverse.findIdx? (· = rbrace)).map (fun i => cs.length - 1 - i)

/-- The brace-delimited span `modelText.slice(start, end + 1)` used by the
fallback (server.js lines 139-144); `none` when
`start === -1 || end === -1 || end <= start`. -/
def braceSpan (modelText : String) : Option String :=
  let cs := modelText.toList
  match firstBrace cs, lastBrace cs with
  | some s, some e => if e ≤ s then none else some (String.mk ((cs.drop s).take (e + 1 - s)))
  | _, _ => none

/-- The post-transport portion of `geminiGenerateJson` (server.js lines
132-145), applied to the extracted candidate text. `parseJson` models
`JSON.parse`: `.ok` a parsed value, `.error` the thrown SyntaxError message.
Empty text throws "No model text returned"; a strict-parse failure falls back
to parsing the first-`\x7b`-to-last-`\x7d` span; with no such span the throw
is "Model did not return JSON", and a failing fallback parse propagates the
parse error. -/
def geminiGenerateJson (parseJson : String → Except String JVal)
    (modelText : String) : Except String JVal :=
  if modelText = "" then .error "No model text returned"
  else
    match parseJson modelText with
    | .ok j => .ok j
    | .error _ =>
      match braceSpan modelText with
      | none => .error "Model did not return JSON"
      | some sub => parseJson sub

/-! ## Client workflow (src/unnamed/part_000) -/

/-- Numeric value of a run of decimal digits. -/
def digitsVal (cs : List Char) : Nat :=
  cs.foldl (fun acc c => acc * 10 + (c.toNat - 48)) 0

/-- Leading and trailing whitespace removal, as `Number(string)` performs
before conversion. -/
def stripWs (cs : List Char) : List Char :=
  ((cs.dropWhile Char.isWhitespace).reverse.dropWhile Char.isWhitespace).reverse

/-- Model of the JavaScript `Number(string)` conversion on the decimal
strings this form handles: surrounding whitespace is ignored, the empty (or
whitespace-only) string converts to 0, and an optional sign followed by
digits with an optional fractional part converts to its value. Every other
string — including the forms (hex, exponent, Infinity) this model does not
distinguish from garbage — is `none`, modelling NaN/non-finite. -/
def jsNumber (s : String) : Option ℚ :=
  let cs := stripWs s.toList
  if cs.isEmpty then some 0
  else
    let sgn : ℚ := match cs.head? with | some c => if c = '-' then -1 else 1 | none => 1
    let body : List Char :=
      match cs with
      | '-' :: rest => rest
      | '+' :: rest => rest
      | _ => cs
    let ip := body.takeWhile Char.isDigit
    let rest := body.dropWhile Char.isDigit
    match rest with
    | [] => if ip.isEmpty then none else some (sgn * digitsVal ip)
    | '.' :: fp =>
      if fp.all Char.isDigit && !(ip.isEmpty && fp.isEmpty) then
        some (sgn * ((digitsVal ip : ℚ) + (digitsVal fp : ℚ) / (10 : ℚ) ^ fp.length))
      else none
    | _ => none

/-- Embeds `toNumber` (part_000 lines 59-62): `Number(value)` when finite, else
null. In this model `jsNumber` already yields `none` exactly on the
non-finite cases. -/
def toNumber (value : String) : Option ℚ :=
  jsNumber value

/-- The `refundPercent` useMemo (part_000 lines 81-86):
`if (!total || total <= 0 || refunded == null) return null` then
`(refunded / total) * 100`. -/
def clientRefundPercent (bookingTotal refundedAmount : String) : Option ℚ :=
  let total := toNumber bookingTotal
  let refunded := toNumber refundedAmount
  match total with
  | none => none
  | some t =>
    if t ≤ 0 then none
    else
      match refunded with
      | none => none
      | some r => some (r / t * 100)

/-- Embeds `bookingTotal ? Number(bookingTotal) : null` (part_000 line 104): the
empty string is falsy, so it sends null; a NaN/non-finite conversion
serializes to null in the JSON body, likewise `none`. -/
def payloadBookingTotal (bookingTotal : String) : Option ℚ :=
  if bookingTotal = "" then none else jsNumber bookingTotal

/-- Embeds `refundedAmount ? Number(refundedAmount) : null` (part_000 line 105). -/
def payloadRefundedAmount (refundedAmount : String) : Option ℚ :=
  if refundedAmount = "" then none else jsNumber refundedAmount

/-- Integer-and-two-digit-fraction rendering of `n` hundredths. -/
def fixedDigits (n : ℕ) : String :=
  toString (n / 100) ++ "." ++ (if n % 100 < 10 then "0" else "") ++ toString (n % 100)

/-- Model of JavaScript `q.toFixed(2)`: round to two decimals (half away
from zero) and print with a zero-padded two-digit fraction. -/
def toFixed2 (q : ℚ) : String :=
  if q < 0 then "-" ++ fixedDigits (⌊-q * 100 + 1 / 2⌋).toNat
  else fixedDigits (⌊q * 100 + 1 / 2⌋).toNat

/-- The refund-percent readout (part_000 line 215):
`refundPercent == null ? "—" : refundPercent.toFixed(2) + "%"`. -/
def displayPercent (refundPercent : Option ℚ) : String :=
  match refundPercent with
  | none => "—"
  | some p => toFixed2 p ++ "%"

/-- Embeds `data.field ?? []` for the audit record's array fields (part_000 lines
139-143): substitute the empty array only when the field is absent (or
null — not distinguished here, both `none`). -/
def auditArrayField (v : Option JVal) : JVal :=
  v.getD (JVal.arr [])

/-- A concrete stand-in for JSON.parse used to instantiate the engine-client
theorems on closed inputs: it accepts exactly the two-character text
`\x7b\x7d` (the empty object) and reports a syntax error on anything else. -/
def stubParse : String → Except String JVal :=
  fun s => if s = "\x7b\x7d" then .ok (JVal.obj []) else .error "SyntaxError: Unexpected token"

/-! ## Association-list lemmas used by the claims -/

theorem lookupKey_setKey (o : List (String × JVal)) (k k' : String) (v : JVal) :
    lookupKey (setKey o k v) k' = if k = k' then some v else lookupKey o k' := by
  induction o with
  | nil => simp [setKey, lookupKey]
  | cons e rest ih =>
    obtain ⟨k₀, v₀⟩ := e
    by_cases h₀ : k₀ = k
    · subst h₀
      by_cases h₁ : k₀ = k' <;> simp [setKey, lookupKey, h₁]
    · by_cases h₁ : k₀ = k'
      · subst h₁
        have hkk : k ≠ k₀ := fun h => h₀ h.symm
        simp [setKey, lookupKey, h₀, hkk]
      · simp [setKey, lookupKey, h₀, h₁, ih]

theorem lookupKey_eq_none (o : List (String × JVal)) (k : String)
    (h : k ∉ o.map Prod.fst) : lookupKey o k = none := by
  induction o with
  | nil => rfl
  | cons e rest ih =>
    obtain ⟨k₀, v₀⟩ := e
    simp only [List.map_cons, List.mem_cons, not_or] at h
    have hne : k₀ ≠ k := fun h' => h.1 h'.symm
    simp [lookupKey, hne, ih h.2]

theorem lookupKey_spreadObj (base override : List (String × JVal)) (k : String)
    (hnd : (override.map Prod.fst).Nodup) :
    lookupKey (spreadObj base override) k =
      (lookupKey override k).orElse (fun _ => lookupKey base k) := by
  induction override generalizing base with
  | nil => simp [spreadObj, lookupKey, Option.orElse]
  | cons e rest ih =>
    obtain ⟨k₀, v₀⟩ := e
    simp only [List.map_cons, List.nodup_cons] at hnd
    have step : spreadObj base ((k₀, v₀) :: rest) = spreadObj (setKey base k₀ v₀) rest := rfl
    rw [step, ih _ hnd.2]
    by_cases h : k₀ = k
    · subst h
      have hnone : lookupKey rest k₀ = none := lookupKey_eq_none _ _ hnd.1
      simp [lookupKey, hnone, lookupKey_setKey, Option.orElse]
    · simp [lookupKey, h, lookupKey_setKey, Option.orElse]

/-! ## Claims -/

/-- C2: for every input pair, `computeRefundPercent` returns absent (null) —
not zero and not an error — when total is missing, zero or negative or when
refunded is missing; otherwise it returns exactly (refunded / total) * 100,
which may exceed 100. -/
theorem C2_computeRefundPercent_spec (total refunded : Option ℚ) :
    (total = none → computeRefundPercent total refunded = none) ∧
    (∀ t, total = some t → t ≤ 0 → computeRefundPercent total refunded = none) ∧
    (refunded = none → computeRefundPercent total refunded = none) ∧
    (∀ t r, total = some t → 0 < t → refunded = some r →
      computeRefundPercent total refunded = some (r / t * 100)) ∧
    (∃ t r : ℚ, 0 < t ∧ (100 : ℚ) < r / t * 100 ∧
      computeRefundPercent (some t) (some r) = some (r / t * 100)) := by
  refine ⟨?_, ?_, ?_, ?_, ?_⟩
  · rintro rfl; rfl
  · rintro t rfl ht
    simp [computeRefundPercent, ht]
  · rintro rfl
    cases total with
    | none => rfl
    | some t =>
      by_cases ht : t ≤ 0 <;> simp [computeRefundPercent, ht]
  · rintro t r rfl ht rfl
    simp [computeRefundPercent, not_le.mpr ht]
  · exact ⟨100, 150, by norm_num, by norm_num, by norm_num [computeRefundPercent]⟩

/-- Witness for C2: booking total 560, refunded 85.06 (= 4253/50) yields
exactly 4253/50/560*100 percent. -/
theorem C2_witness :
    (0 : ℚ) < 560 ∧
    computeRefundPercent (some 560) (some (4253 / 50)) = some (4253 / 50 / 560 * 100) :=
  ⟨by norm_num,
    (C2_computeRefundPercent_spec (some 560) (some (4253 / 50))).2.2.2.1
      560 (4253 / 50) rfl (by norm_num) rfl⟩

/-- C3: `softCapExceeded` is true iff the refund percent is present and
strictly greater than the encouraged cap (exactly at the cap gives false),
`hardCapExceeded` is true iff it is present and strictly greater than the
max cap, and both flags are false whenever the percent is absent. -/
theorem C3_cap_flags_spec (rp : Option ℚ) (encCap maxCap : ℚ) :
    (capExceeded rp encCap = true ↔ ∃ p, rp = some p ∧ encCap < p) ∧
    (capExceeded rp maxCap = true ↔ ∃ p, rp = some p ∧ maxCap < p) ∧
    capExceeded (some encCap) encCap = false ∧
    (rp = none → capExceeded rp encCap = false ∧ capExceeded rp maxCap = false) := by
  refine ⟨?_, ?_, ?_, ?_⟩
  · cases rp with
    | none => simp [capExceeded]
    | some p => simp [capExceeded]
  · cases rp with
    | none => simp [capExceeded]
    | some p => simp [capExceeded]
  · simp [capExceeded]
  · rintro rfl; exact ⟨rfl, rfl⟩

/-- Witness for C3: an absent refund percent leaves both flags false at the
default caps 15 and 20. -/
theorem C3_witness :
    capExceeded none 15 = false ∧ capExceeded none 20 = false :=
  (C3_cap_flags_spec none 15 20).2.2.2 rfl

/-- C6: for every engine output — including one with no policy sub-object —
the reconciled result contains a non-absent `policy` object. -/
theorem C6_policy_always_present (data : JVal) (rp : Option ℚ) (soft hard : Bool)
    (encCap maxCap : ℚ) :
    ∃ p, lookupKey (mergedResult data rp soft hard encCap maxCap) "policy" =
      some (JVal.obj p) := by
  refine ⟨mergedPolicy data rp soft hard encCap maxCap, ?_⟩
  rw [mergedResult, lookupKey_setKey]
  simp

/-- C1 counterexample: with booking total 100, refunded 25 and default caps,
the locally computed refund percent is 25, but when the engine's policy
sub-object carries refund_percent 999 the merged policy block holds 999 —
the engine value, spread last, overwrites the local one. -/
theorem C1_counterexample :
    computeRefundPercent (some 100) (some 25) = some 25 ∧
    lookupKey
      (mergedPolicy
        (JVal.obj [("risk_score", JVal.num 5),
                   ("policy", JVal.obj [("refund_percent", JVal.num 999)])])
        (some 25) true true 15 20)
      "refund_percent" ≠ some (JVal.num 25) ∧
    lookupKey
      (mergedPolicy
        (JVal.obj [("risk_score", JVal.num 5),
                   ("policy", JVal.obj [("refund_percent", JVal.num 999)])])
        (some 25) true true 15 20)
      "refund_percent" = some (JVal.num 999) := by
  refine ⟨by norm_num [computeRefundPercent], ?_, ?_⟩
  · have : lookupKey
        (mergedPolicy
          (JVal.obj [("risk_score", JVal.num 5),
                     ("policy", JVal.obj [("refund_percent", JVal.num 999)])])
          (some 25) true true 15 20)
        "refund_percent" = some (JVal.num 999) := by rfl
    rw [this]
    intro h
    have h999 : (999 : ℚ) = 25 := by
      have := Option.some.inj h
      exact JVal.num.inj this
    norm_num at h999
  · rfl

/-- C1 amended: when the engine supplies its own policy sub-object, the
engine-supplied fields overwrite the locally computed same-named ones (the
engine's entries are spread last), the locally computed values survive only
for policy fields the engine omitted, and engine-supplied policy sub-fields
not among the five local ones are preserved unchanged. -/
theorem C1_policy_merge_engine_wins (data : JVal) (rp : Option ℚ)
    (soft hard : Bool) (encCap maxCap : ℚ) (k : String)
    (hnd : ((enginePolicy data).map Prod.fst).Nodup) :
    (∀ v, lookupKey (enginePolicy data) k = some v →
      lookupKey (mergedPolicy data rp soft hard encCap maxCap) k = some v) ∧
    (lookupKey (enginePolicy data) k = none →
      lookupKey (mergedPolicy data rp soft hard encCap maxCap) k =
        lookupKey (localPolicy rp soft hard encCap maxCap) k) := by
  constructor
  · intro v hv
    rw [mergedPolicy, lookupKey_spreadObj _ _ _ hnd, hv]
    rfl
  · intro hv
    rw [mergedPolicy, lookupKey_spreadObj _ _ _ hnd, hv]
    rfl

/-- Witness for C1's amended statement: a one-entry engine policy with
refund_percent 999 has nodup keys, and the merged policy indeed yields 999. -/
theorem C1_policy_merge_witness :
    ((enginePolicy (JVal.obj [("policy", JVal.obj [("refund_percent", JVal.num 999)])])).map
      Prod.fst).Nodup ∧
    lookupKey
      (mergedPolicy (JVal.obj [("policy", JVal.obj [("refund_percent", JVal.num 999)])])
        (some 25) true true 15 20)
      "refund_percent" = some (JVal.num 999) :=
  ⟨by simp [enginePolicy, topFields, lookupKey],
    (C1_policy_merge_engine_wins
        (JVal.obj [("policy", JVal.obj [("refund_percent", JVal.num 999)])])
        (some 25) true true 15 20 "refund_percent"
        (by simp [enginePolicy, topFields, lookupKey])).1
      (JVal.num 999) rfl⟩

/-- C4 counterexample: when the engine output omits `signals`, the merged
analysis result returned by the endpoint leaves the field absent — it is not
substituted with an empty sequence. -/
theorem C4_counterexample :
    lookupKey
      (mergedResult (JVal.obj [("risk_score", JVal.num 5)]) (some 25) true true 15 20)
      "signals" = none ∧
    lookupKey
      (mergedResult (JVal.obj [("risk_score", JVal.num 5)]) (some 25) true true 15 20)
      "signals" ≠ some (JVal.arr []) := by
  constructor
  · rfl
  · intro h
    have : (none : Option JVal) = some (JVal.arr []) := by
      rw [← h]; rfl
    exact Option.noConfusion this

/-- C4 amended: the merge passes every non-`policy` field of the engine
output through unchanged, so an array-valued field the engine omitted stays
absent in the endpoint's final result; the empty-sequence substitution
(`data.field ?? []`) happens only when the client builds the audit record. -/
theorem C4_arrays_pass_through (data : JVal) (rp : Option ℚ) (soft hard : Bool)
    (encCap maxCap : ℚ) (f : String)
    (hf : f ∈ ["signals", "warnings", "recommended_script", "next_steps", "missing_info"]) :
    lookupKey (mergedResult data rp soft hard encCap maxCap) f =
      lookupKey (topFields data) f ∧
    (lookupKey (topFields data) f = none →
      lookupKey (mergedResult data rp soft hard encCap maxCap) f = none ∧
      auditArrayField (lookupKey (topFields data) f) = JVal.arr []) := by
  have hne : "policy" ≠ f := by
    fin_cases hf <;> decide
  have hpass : lookupKey (mergedResult data rp soft hard encCap maxCap) f =
      lookupKey (topFields data) f := by
    rw [mergedResult, lookupKey_setKey, if_neg hne]
  refine ⟨hpass, fun habs => ⟨hpass.trans habs, ?_⟩⟩
  rw [habs]
  rfl

/-- Witness for C4's amended statement: an engine output holding only
risk_score leaves `signals` absent in the merged result, and the audit record
substitutes the empty array for it. -/
theorem C4_arrays_witness :
    "signals" ∈ ["signals", "warnings", "recommended_script", "next_steps", "missing_info"] ∧
    lookupKey
      (mergedResult (JVal.obj [("risk_score", JVal.num 7)]) none false false 15 20)
      "signals" = none ∧
    auditArrayField
      (lookupKey (topFields (JVal.obj [("risk_score", JVal.num 7)])) "signals") =
      JVal.arr [] :=
  ⟨by decide,
    ((C4_arrays_pass_through (JVal.obj [("risk_score", JVal.num 7)]) none false false
        15 20 "signals" (by decide)).2 rfl).1,
    ((C4_arrays_pass_through (JVal.obj [("risk_score", JVal.num 7)]) none false false
        15 20 "signals" (by decide)).2 rfl).2⟩

/-- C7: a request whose rawNotes is shorter than 10 characters or whose
issueType is empty is answered with a 400 error object before any engine
invocation — the endpoint's response does not depend on the engine at all —
and parsing defaults absent caps to 15 and 20. -/
theorem C7_validation_rejects_before_engine (body : RawAnalyzeBody)
    (engine engine' : AnalyzeInput → Except String JVal)
    (h : body.rawNotes.length < 10 ∨ body.issueType = "") :
    (∃ msg, analyzeEndpoint engine body =
      { status := 400, body := [("error", JVal.str msg)] }) ∧
    analyzeEndpoint engine body = analyzeEndpoint engine' body ∧
    (∀ b : RawAnalyzeBody, ∀ input, AnalyzeSchema.parse b = .ok input →
      (b.encouragedRefundCapPercent = none → input.encouragedRefundCapPercent = 15) ∧
      (b.maxRefundCapPercent = none → input.maxRefundCapPercent = 20)) := by
  have herr : ∃ msg, AnalyzeSchema.parse body = .error msg := by
    rcases h with h | h
    · exact ⟨_, by rw [AnalyzeSchema.parse, if_pos h]⟩
    · by_cases h10 : body.rawNotes.length < 10
      · exact ⟨_, by rw [AnalyzeSchema.parse, if_pos h10]⟩
      · refine ⟨"issueType: String must contain at least 1 character(s)", ?_⟩
        rw [AnalyzeSchema.parse, if_neg h10, if_pos (by rw [h]; decide)]
  obtain ⟨msg, hmsg⟩ := herr
  refine ⟨⟨msg, ?_⟩, ?_, ?_⟩
  · rw [analyzeEndpoint, hmsg]
  · rw [analyzeEndpoint, hmsg, analyzeEndpoint, hmsg]
  · intro b input hp
    rw [AnalyzeSchema.parse] at hp
    by_cases h10 : b.rawNotes.length < 10
    · rw [if_pos h10] at hp
      exact absurd hp (by simp)
    · rw [if_neg h10] at hp
      by_cases h1 : b.issueType.length < 1
      · rw [if_pos h1] at hp
        exact absurd hp (by simp)
      · rw [if_neg h1] at hp
        have := Except.ok.inj hp
        constructor
        · intro hn
          rw [← this]
          simp [hn]
        · intro hn
          rw [← this]
          simp [hn]

/-- Witness for C7: the five-character rawNotes "short" is rejected with a
400 single-error response, identically for two engines that disagree
everywhere. -/
theorem C7_validation_witness :
    (("short".length < 10) ∨ ("Refund" = "")) ∧
    analyzeEndpoint (fun _ => .ok JVal.null)
      { rawNotes := "short", issueType := "Refund", bookingTotal := none,
        refundedAmount := none, encouragedRefundCapPercent := none,
        maxRefundCapPercent := none } =
    analyzeEndpoint (fun _ => .error "engine down")
      { rawNotes := "short", issueType := "Refund", bookingTotal := none,
        refundedAmount := none, encouragedRefundCapPercent := none,
        maxRefundCapPercent := none } ∧
    (∃ msg, analyzeEndpoint (fun _ => .ok JVal.null)
      { rawNotes := "short", issueType := "Refund", bookingTotal := none,
        refundedAmount := none, encouragedRefundCapPercent := none,
        maxRefundCapPercent := none } =
      { status := 400, body := [("error", JVal.str msg)] }) :=
  ⟨Or.inl (by decide),
    (C7_validation_rejects_before_engine _ (fun _ => .ok JVal.null)
      (fun _ => .error "engine down") (Or.inl (by decide))).2.1,
    (C7_validation_rejects_before_engine _ (fun _ => .ok JVal.null)
      (fun _ => .error "engine down") (Or.inl (by decide))).1⟩

/-- C8: every response of the analysis endpoint is either a 200 success or a
400 response whose body is exactly the single-field object
`\x7b error: message \x7d`; no other shape — in particular no partial
result — is ever produced, whatever the engine does at any stage. -/
theorem C8_error_responses_single_field (body : RawAnalyzeBody)
    (engine : AnalyzeInput → Except String JVal) :
    (∃ rbody, analyzeEndpoint engine body = { status := 200, body := rbody }) ∨
    (∃ msg, analyzeEndpoint engine body =
      { status := 400, body := [("error", JVal.str msg)] }) := by
  cases hp : AnalyzeSchema.parse body with
  | error msg => exact Or.inr ⟨msg, by rw [analyzeEndpoint, hp]⟩
  | ok input =>
    cases he : engine input with
    | error msg => exact Or.inr ⟨msg, by simp only [analyzeEndpoint, hp, he]⟩
    | ok data =>
      exact Or.inl
        ⟨mergedResult data (computeRefundPercent input.bookingTotal input.refundedAmount)
            (capExceeded (computeRefundPercent input.bookingTotal input.refundedAmount)
              input.encouragedRefundCapPercent)
            (capExceeded (computeRefundPercent input.bookingTotal input.refundedAmount)
              input.maxRefundCapPercent)
            input.encouragedRefundCapPercent input.maxRefundCapPercent,
          by simp only [analyzeEndpoint, hp, he]⟩

/-- C5: on transport success with non-empty engine text, a strict parse of
the whole text is attempted first and its value returned on success; on
failure the substring from the first opening to the last closing brace is
parsed instead; when no such brace pair exists the call fails with the
malformed-output error, and when the fallback parse itself fails its parse
error propagates — in every failure case no result is produced. -/
theorem C5_strict_then_span_fallback (parseJson : String → Except String JVal)
    (modelText : String) (h : modelText ≠ "") :
    (∀ j, parseJson modelText = .ok j →
      geminiGenerateJson parseJson modelText = .ok j) ∧
    (∀ e, parseJson modelText = .error e → braceSpan modelText = none →
      geminiGenerateJson parseJson modelText = .error "Model did not return JSON") ∧
    (∀ e sub, parseJson modelText = .error e → braceSpan modelText = some sub →
      geminiGenerateJson parseJson modelText = parseJson sub) ∧
    (∀ e sub e', parseJson modelText = .error e → braceSpan modelText = some sub →
      parseJson sub = .error e' →
      geminiGenerateJson parseJson modelText = .error e') := by
  refine ⟨?_, ?_, ?_, ?_⟩
  · intro j hj
    rw [geminiGenerateJson, if_neg h, hj]
  · intro e he hb
    rw [geminiGenerateJson, if_neg h, he, hb]
  · intro e sub he hb
    rw [geminiGenerateJson, if_neg h, he, hb]
  · intro e sub e' he hb he'
    rw [geminiGenerateJson, if_neg h, he, hb]
    exact he'

/-- Witness for C5: prose wrapping an embedded JSON object fails the strict
parse, and the brace-span fallback recovers the embedded object. -/
theorem C5_span_witness :
    ("prose \x7b\x7d tail" ≠ "") ∧
    geminiGenerateJson stubParse "prose \x7b\x7d tail" = .ok (JVal.obj []) :=
  ⟨by decide,
    by
      have hstep := (C5_strict_then_span_fallback stubParse "prose \x7b\x7d tail"
          (by decide)).2.2.1 "SyntaxError: Unexpected token" "\x7b\x7d"
        (by rfl) (by decide)
      rw [hstep]
      rfl⟩

/-- C9 counterexample: with booking total "100" and the refunded-amount field
left blank, the client workflow displays refund percent 0 while the server's
computeRefundPercent applied to the payload it sends yields absent — the two
computations disagree. -/
theorem C9_counterexample :
    clientRefundPercent "100" "" = some 0 ∧
    computeRefundPercent (payloadBookingTotal "100") (payloadRefundedAmount "") = none ∧
    clientRefundPercent "100" "" ≠
      computeRefundPercent (payloadBookingTotal "100") (payloadRefundedAmount "") := by
  have h1 : clientRefundPercent "100" "" = some 0 := by
    simp +decide [clientRefundPercent, toNumber, jsNumber, stripWs, digitsVal]
  have h2 : computeRefundPercent (payloadBookingTotal "100") (payloadRefundedAmount "") =
      none := by
    simp +decide [computeRefundPercent, payloadBookingTotal, payloadRefundedAmount,
      jsNumber, stripWs, digitsVal]
  exact ⟨h1, h2, by rw [h1, h2]; exact fun hh => Option.noConfusion hh⟩

/-- C9 amended: whenever the refunded-amount input string is non-empty, the
refund percent the client workflow computes and displays equals the server's
computeRefundPercent applied to the payload values the client sends (only a
blank refunded-amount field, converted to 0 locally but sent as null, breaks
the agreement). -/
theorem C9_client_matches_server (bookingTotal refundedAmount : String)
    (h : refundedAmount ≠ "") :
    clientRefundPercent bookingTotal refundedAmount =
      computeRefundPercent (payloadBookingTotal bookingTotal)
        (payloadRefundedAmount refundedAmount) := by
  rw [payloadRefundedAmount, if_neg h, payloadBookingTotal]
  by_cases hb : bookingTotal = ""
  · rw [if_pos hb, hb]
    have h0 : jsNumber "" = some 0 := by simp +decide [jsNumber, stripWs]
    simp [clientRefundPercent, toNumber, h0, computeRefundPercent]
  · rw [if_neg hb]
    rfl

/-- Witness for C9's amended statement: booking total "560", refunded
"85.06" — client and server agree, at value 8506/560 percent. -/
theorem C9_client_matches_server_witness :
    ("85.06" ≠ "") ∧
    clientRefundPercent "560" "85.06" =
      computeRefundPercent (payloadBookingTotal "560") (payloadRefundedAmount "85.06") ∧
    clientRefundPercent "560" "85.06" = some (4253 / 280) :=
  ⟨by decide,
    C9_client_matches_server "560" "85.06" (by decide),
    by
      simp +decide [clientRefundPercent, toNumber, jsNumber, stripWs, digitsVal]
      norm_num⟩

/-- C10: the empty refunded-amount string is converted by toNumber to 0, so
with booking total "100" and a blank refunded field the UI shows "0.00%"
while the payload carries refundedAmount null; the server's refund percent
for that payload is absent, so the displayed and server-side percentages
differ. -/
theorem C10_blank_refunded_divergence :
    toNumber "" = some 0 ∧
    clientRefundPercent "100" "" = some 0 ∧
    displayPercent (clientRefundPercent "100" "") = "0.00%" ∧
    payloadRefundedAmount "" = none ∧
    computeRefundPercent (payloadBookingTotal "100") (payloadRefundedAmount "") = none ∧
    clientRefundPercent "100" "" ≠
      computeRefundPercent (payloadBookingTotal "100") (payloadRefundedAmount "") := by
  have h1 : clientRefundPercent "100" "" = some 0 := by
    simp +decide [clientRefundPercent, toNumber, jsNumber, stripWs, digitsVal]
  have h2 : computeRefundPercent (payloadBookingTotal "100") (payloadRefundedAmount "") =
      none := by
    simp +decide [computeRefundPercent, payloadBookingTotal, payloadRefundedAmount,
      jsNumber, stripWs, digitsVal]
  refine ⟨by simp +decide [toNumber, jsNumber, stripWs], h1, ?_, rfl, h2,
    by rw [h1, h2]; exact fun hh => Option.noConfusion hh⟩
  rw [h1, displayPercent, toFixed2, if_neg (by norm_num),
    show ⌊(0 : ℚ) * 100 + 1 / 2⌋ = 0 by norm_num]
  decide
